import Mathlib

/-!
Verification development for the trading-bot decision engine:
indicator computation (`technicalIndicatorsService`), strategy evaluation
(`tradingStrategyService`) and pre-trade risk validation
(`riskManagementService`), shallowly embedded over exact rationals.

JavaScript numbers are modelled as `ℚ`; the distinguished JS values
`undefined` and `null`, which the source manipulates through truthiness
and numeric coercion, are modelled by the `JsVal` type below.
-/

namespace TradingBot

/-- A JavaScript value that is either a number, `null`, or `undefined`.
Indicator fields attached by the service are numbers or `null`; a field
that was never assigned reads as `undefined`. -/
inductive JsVal where
  | undef : JsVal
  | null : JsVal
  | num : ℚ → JsVal
deriving DecidableEq, Repr

/-- Numeric coercion used by JS relational operators: `null` coerces to `0`,
`undefined` coerces to `NaN` (no number), a number to itself. -/
def JsVal.toNum : JsVal → Option ℚ
  | JsVal.undef => none
  | .null => some 0
  | .num v => some v

/-- JS `a < b` for a possibly-null/undefined `a` and a number `b`:
comparisons against `NaN` are false, `null` compares as `0`. -/
def jsLt (a : JsVal) (b : ℚ) : Bool :=
  match a.toNum with
  | some x => decide (x < b)
  | none => false

/-- JS `a > b` for a possibly-null/undefined `a` and a number `b`. -/
def jsGt (a : JsVal) (b : ℚ) : Bool :=
  match a.toNum with
  | some x => decide (b < x)
  | none => false

/-- JS `a > b` for two possibly-null/undefined values: false whenever either
side coerces to `NaN` (i.e. is `undefined`). -/
def jsGtV (a b : JsVal) : Bool :=
  match a.toNum, b.toNum with
  | some x, some y => decide (y < x)
  | _, _ => false

/-- JS `x || d` for an optional number `x` (absent or `null` behaves the
same): the default is taken when `x` is missing or is the falsy number `0`. -/
def jsOrQ (x : Option ℚ) (d : ℚ) : ℚ :=
  match x with
  | some v => if v = 0 then d else v
  | none => d

/-- The `value || null` attachment pattern of the indicator service:
an out-of-range library read (`undefined`) becomes `null`, and so does the
falsy number `0`; any other number is kept. -/
def jsOfOpt : Option ℚ → JsVal
  | some v => if v = 0 then JsVal.null else JsVal.num v
  | none => JsVal.null

/-- JS `h > b` where `h` is a possibly-undefined object property. -/
def jsGtO (h : Option ℚ) (b : ℚ) : Bool :=
  match h with
  | some v => decide (b < v)
  | none => false

/-- JS `h < b` where `h` is a possibly-undefined object property. -/
def jsLtO (h : Option ℚ) (b : ℚ) : Bool :=
  match h with
  | some v => decide (v < b)
  | none => false

/-- JS `h <= b` where `h` is a possibly-undefined object property. -/
def jsLeO (h : Option ℚ) (b : ℚ) : Bool :=
  match h with
  | some v => decide (v ≤ b)
  | none => false

/-- JS `h >= b` where `h` is a possibly-undefined object property. -/
def jsGeO (h : Option ℚ) (b : ℚ) : Bool :=
  match h with
  | some v => decide (b ≤ v)
  | none => false

/-- JS array indexing `arr[i]` with a possibly negative index: negative
indices read as `undefined`. -/
def jsIndex {α : Type} (l : List α) (i : Int) : Option α :=
  if i < 0 then none else l[i.toNat]?

/-- One OHLCV bar as consumed by the services. The `open` price is carried
by the source objects but never read by any code modelled here, so it is
omitted from the record. -/
structure Bar where
  openTime : ℚ
  high : ℚ
  low : ℚ
  close : ℚ
  volume : ℚ
deriving DecidableEq, Repr

/-- A bar together with the indicator fields the modelled code ever reads.
Every `calculate<Indicator>` call spreads the input object and assigns one
fixed field, so fields keep their previous value unless reassigned; a field
no call ever assigns (notably `smaLong` and `emaLong`, which the strategy
code reads but `calculateSMA`/`calculateEMA` never write — they always
store under the keys `sma`/`ema`) reads as `undefined`. -/
structure MacdEntry where
  macdV : ℚ
  signalV : Option ℚ
  histogramV : Option ℚ
deriving DecidableEq, Repr

/-- The `macd` field: `undefined` before attachment, `null` when the library
array had no entry at the index, or a `{MACD, signal, histogram}` object. -/
inductive JsMacd where
  | undef : JsMacd
  | null : JsMacd
  | obj : MacdEntry → JsMacd
deriving DecidableEq, Repr

structure IndBar where
  openTime : ℚ
  high : ℚ
  low : ℚ
  close : ℚ
  volume : ℚ
  sma : JsVal := JsVal.undef
  smaLong : JsVal := JsVal.undef
  ema : JsVal := JsVal.undef
  emaLong : JsVal := JsVal.undef
  rsi : JsVal := JsVal.undef
  atr : JsVal := JsVal.undef
  obv : JsVal := JsVal.undef
  vwap : Option ℚ := none
  macd : JsMacd := JsMacd.undef
deriving DecidableEq, Repr

/-- The plain data object handed to the services, before any indicator
field exists on it. -/
def toIndBar (b : Bar) : IndBar :=
  { openTime := b.openTime, high := b.high, low := b.low,
    close := b.close, volume := b.volume }

/-- `data.map((item, index) => ...)` with the running index made explicit. -/
def mapIdxGo {α β : Type} (f : ℕ → α → β) : ℕ → List α → List β
  | _, [] => []
  | k, x :: xs => f k x :: mapIdxGo f (k + 1) xs

theorem mapIdxGo_length {α β : Type} (f : ℕ → α → β) (k : ℕ) (l : List α) :
    (mapIdxGo f k l).length = l.length := by
  induction l generalizing k with
  | nil => rfl
  | cons x xs ih => simp [mapIdxGo, ih]

theorem mapIdxGo_getElem? {α β : Type} (f : ℕ → α → β) (k i : ℕ) (l : List α) :
    (mapIdxGo f k l)[i]? = (l[i]?).map (f (k + i)) := by
  induction l generalizing k i with
  | nil => simp [mapIdxGo]
  | cons x xs ih =>
    cases i with
    | zero => simp [mapIdxGo]
    | succ j =>
      simp only [mapIdxGo, List.getElem?_cons_succ, ih (k + 1) j]
      ring_nf

/-!
Models of the `technicalindicators` npm package (an external dependency of
the service). Each `<name>Raw` function returns the library's output array.
The load-bearing fact for the claims settled below is its length and
alignment: the library emits values only once a full window exists, so its
output is SHORTER than the input (`SMA`/`EMA`: `n - p + 1` values, `RSI` and
`ATR`: `n - p`, `OBV`: `n - 1`, `MACD`: `n - slow + 1`), with entry `i`
computed from the window STARTING at input index `i`. The service then maps
entry `i` of this shorter array onto bar `i`. Values follow the library's
formulas exactly over `ℚ` (the library also applies a display rounding,
which no settled claim depends on). -/

/-- Simple moving average, `technicalindicators` `SMA.calculate`:
entry `i` is the mean of `values[i .. i+p-1]`; empty for an oversized or
zero period. -/
def smaRaw (p : ℕ) (values : List ℚ) : List ℚ :=
  if p = 0 ∨ values.length < p then []
  else (List.range (values.length - p + 1)).map
    (fun i => ((values.drop i).take p).sum / (p : ℚ))

/-- Exponential moving average recurrence. -/
def emaRun (k : ℚ) : ℚ → List ℚ → List ℚ
  | _, [] => []
  | a, x :: xs => let a2 := (x - a) * k + a; a2 :: emaRun k a2 xs

/-- Exponential moving average, `technicalindicators` `EMA.calculate`:
seeded with the SMA of the first `p` values, multiplier `2 / (p + 1)`. -/
def emaRaw (p : ℕ) (values : List ℚ) : List ℚ :=
  if p = 0 ∨ values.length < p then []
  else
    let a0 := (values.take p).sum / (p : ℚ)
    a0 :: emaRun (2 / ((p : ℚ) + 1)) a0 (values.drop p)

/-- Wilder smoothing: seeded with the plain average of the first `p`
inputs, then `a' = (a * (p - 1) + x) / p`. -/
def wilderRun (p : ℕ) : ℚ → List ℚ → List ℚ
  | _, [] => []
  | a, x :: xs => let a2 := (a * ((p : ℚ) - 1) + x) / (p : ℚ); a2 :: wilderRun p a2 xs

def wilderAvg (p : ℕ) (xs : List ℚ) : List ℚ :=
  if p = 0 ∨ xs.length < p then []
  else
    let a0 := (xs.take p).sum / (p : ℚ)
    a0 :: wilderRun p a0 (xs.drop p)

/-- Successive differences `values[i+1] - values[i]`. -/
def diffsQ (values : List ℚ) : List ℚ :=
  List.zipWith (fun a b => b - a) values (values.drop 1)

/-- Relative strength index, `technicalindicators` `RSI.calculate`:
Wilder-smoothed average gain over average loss; `100` when there are no
losses, `0` when there are no gains. Output length `n - p`. -/
def rsiRaw (p : ℕ) (values : List ℚ) : List ℚ :=
  let ds := diffsQ values
  let gains := ds.map (fun d => max d 0)
  let losses := ds.map (fun d => max (-d) 0)
  List.zipWith
    (fun g l => if l = 0 then 100 else if g = 0 then 0 else 100 - 100 / (1 + g / l))
    (wilderAvg p gains) (wilderAvg p losses)

/-- MACD, `technicalindicators` `MACD.calculate` with the default EMA
oscillator: the MACD line is fast EMA minus slow EMA (aligned at the
series end, so `n - slow + 1` entries), the signal line is an EMA of the
MACD line, present only once warm; histogram is their difference. -/
def macdRaw (fast slow signalP : ℕ) (values : List ℚ) : List MacdEntry :=
  let fastE := emaRaw fast values
  let slowE := emaRaw slow values
  let macdLine := List.zipWith (fun f s => f - s) (fastE.drop (fastE.length - slowE.length)) slowE
  let signalLine := emaRaw signalP macdLine
  let off := macdLine.length - signalLine.length
  (List.range macdLine.length).filterMap (fun i =>
    (macdLine[i]?).map (fun m =>
      let s := if off ≤ i then signalLine[i - off]? else none
      { macdV := m, signalV := s, histogramV := s.map (fun sv => m - sv) }))

/-- Average true range, `technicalindicators` `ATR.calculate`: Wilder
smoothing of the true ranges (which need a previous close, so `n - 1`
true ranges and `n - p` outputs). -/
def atrRaw (p : ℕ) (bars : List IndBar) : List ℚ :=
  let trs := List.zipWith
    (fun prev cur => max (cur.high - cur.low) (max |cur.high - prev.close| |cur.low - prev.close|))
    bars (bars.drop 1)
  wilderAvg p trs

/-- On-balance volume, `technicalindicators` `OBV.calculate`: a running
signed-volume sum starting at `0`, emitted from the second tick on
(output length `n - 1`); an unchanged close leaves the sum unchanged. -/
def obvGo : ℚ → ℚ → List (ℚ × ℚ) → List ℚ
  | _, _, [] => []
  | lastC, acc, (c, v) :: rest =>
    let acc2 := if lastC < c then acc + v else if c < lastC then acc - v else acc
    acc2 :: obvGo c acc2 rest

def obvRaw : List (ℚ × ℚ) → List ℚ
  | [] => []
  | (c0, _) :: rest => obvGo c0 0 rest

/-!
The indicator service (`src/unnamed/part_000`). Each function maps over
the input, spreading each item and attaching one field: the library value
at the SAME index when present, coerced through `value || null`.
-/

def calculateSMA (data : List IndBar) (period : ℕ) : List IndBar :=
  let sma := smaRaw period (data.map (·.close))
  mapIdxGo (fun i item => { item with sma := jsOfOpt sma[i]? }) 0 data

def calculateEMA (data : List IndBar) (period : ℕ) : List IndBar :=
  let ema := emaRaw period (data.map (·.close))
  mapIdxGo (fun i item => { item with ema := jsOfOpt ema[i]? }) 0 data

def calculateRSI (data : List IndBar) (period : ℕ) : List IndBar :=
  let rsi := rsiRaw period (data.map (·.close))
  mapIdxGo (fun i item => { item with rsi := jsOfOpt rsi[i]? }) 0 data

def calculateMACD (data : List IndBar) (fastPeriod slowPeriod signalPeriod : ℕ) :
    List IndBar :=
  let macd := macdRaw fastPeriod slowPeriod signalPeriod (data.map (·.close))
  mapIdxGo (fun i item =>
    { item with macd := match macd[i]? with
        | some e => JsMacd.obj e
        | none => JsMacd.null }) 0 data

def calculateATR (data : List IndBar) (period : ℕ) : List IndBar :=
  let atr := atrRaw period data
  mapIdxGo (fun i item => { item with atr := jsOfOpt atr[i]? }) 0 data

def calculateOBV (data : List IndBar) : List IndBar :=
  let obv := obvRaw (data.map (fun d => (d.close, d.volume)))
  mapIdxGo (fun i item => { item with obv := jsOfOpt obv[i]? }) 0 data

/-- `calculateVWAP` (src lines 212-235): a map threading two mutable
cumulative sums through the closure; the attached value is
`cumulativeTPV / cumulativeVolume` when the cumulative volume is
strictly positive and `null` otherwise. -/
def vwapGo (cumTPV cumVol : ℚ) : List IndBar → List IndBar
  | [] => []
  | item :: rest =>
    let typicalPrice := (item.high + item.low + item.close) / 3
    let cumTPV2 := cumTPV + typicalPrice * item.volume
    let cumVol2 := cumVol + item.volume
    { item with vwap := if 0 < cumVol2 then some (cumTPV2 / cumVol2) else none }
      :: vwapGo cumTPV2 cumVol2 rest

def calculateVWAP (data : List IndBar) : List IndBar :=
  vwapGo 0 0 data

/-- A support or resistance point: `{price, index, timestamp}`. -/
structure SRPoint where
  price : ℚ
  index : ℕ
  timestamp : ℚ
deriving DecidableEq, Repr

/-- A bar annotated with the supports/resistances discovered at or before
its own timestamp, as produced by `calculateSupportResistance`. -/
structure SRBar where
  item : IndBar
  supports : List SRPoint
  resistances : List SRPoint
deriving DecidableEq, Repr

/-- `calculateSupportResistance` (src lines 337-381): a point at index `i`
(with full windows on both sides) is a support (resistance) when its low
(high) is extremal over both windows; the function returns
`data.map(item => ({...item, supports: ..., resistances: ...}))` — an
ARRAY of annotated bars, filtered per bar to points at or before the
bar's own `openTime`. -/
def srSupports (data : List IndBar) (window : ℕ) : List SRPoint :=
  ((List.range data.length).filter
    (fun i => window ≤ i && i + window < data.length)).filterMap (fun i =>
      match data[i]? with
      | none => none
      | some current =>
        let leftWindow := (data.drop (i - window)).take window
        let rightWindow := (data.drop (i + 1)).take window
        if leftWindow.all (fun d => current.low ≤ d.low)
            && rightWindow.all (fun d => current.low ≤ d.low) then
          some { price := current.low, index := i, timestamp := current.openTime }
        else none)

def srResistances (data : List IndBar) (window : ℕ) : List SRPoint :=
  ((List.range data.length).filter
    (fun i => window ≤ i && i + window < data.length)).filterMap (fun i =>
      match data[i]? with
      | none => none
      | some current =>
        let leftWindow := (data.drop (i - window)).take window
        let rightWindow := (data.drop (i + 1)).take window
        if leftWindow.all (fun d => d.high ≤ current.high)
            && rightWindow.all (fun d => d.high ≤ current.high) then
          some { price := current.high, index := i, timestamp := current.openTime }
        else none)

def calculateSupportResistance (data : List IndBar) (window : ℕ := 20) : List SRBar :=
  let supports := srSupports data window
  let resistances := srResistances data window
  data.map (fun item =>
    { item := item,
      supports := supports.filter (fun s => s.timestamp ≤ item.openTime),
      resistances := resistances.filter (fun r => r.timestamp ≤ item.openTime) })

/-- Member access `x.length` on a non-array JS value: a `TypeError` on
`undefined` or `null`; on a number the property simply reads as
`undefined` (that branch is never reached below). -/
def jsLengthOf : JsVal → Except String JsVal
  | JsVal.undef => Except.error "TypeError: Cannot read properties of undefined (reading length)"
  | .null => .error "TypeError: Cannot read properties of null (reading length)"
  | JsVal.num _ => Except.ok JsVal.undef

/-- The shape `calculateAllIndicators` intends to return. -/
structure CompositeOut where
  data : List SRBar
  supports : JsVal
  resistances : JsVal
deriving Repr

/-- `calculateAllIndicators` (src lines 386-443) from the point where the
indicator chain (lines 405-423, thirteen `calculate*` calls on the
external library) has produced `result`; the chain only determines the
contents of `result`, which is therefore taken as the input here.
Line 426, `const { supports, resistances } = this.calculateSupportResistance(result);`,
destructures two object properties out of the ARRAY that
`calculateSupportResistance` returns, so both bind to `undefined`;
line 430 then evaluates `supports.length` inside the `logger.info`
arguments, a `TypeError` on `undefined`, which the surrounding catch
block logs and rethrows. -/
def calculateAllIndicators (result : List IndBar) : Except String CompositeOut :=
  let sr := calculateSupportResistance result 20
  let supports : JsVal := JsVal.undef
  let resistances : JsVal := JsVal.undef
  match jsLengthOf supports, jsLengthOf resistances with
  | .error e, _ => .error e
  | _, .error e => .error e
  | .ok _, .ok _ => .ok { data := sr, supports := supports, resistances := resistances }

/-!
The strategy service (`src/unnamed/part_001`, `tradingStrategyService`).
Options arrive as a loose parameter bag; destructuring with defaults is
modelled by `Option` fields read through `getD` (a JS default applies
exactly when the key is absent). Display strings that interpolate numbers
(`toFixed`) are carried as their fixed template text; no settled claim
reads them. -/

structure Options where
  rsiPeriod : Option ℕ := none
  rsiOverbought : Option ℚ := none
  rsiOversold : Option ℚ := none
  macdFast : Option ℕ := none
  macdSlow : Option ℕ := none
  macdSignalP : Option ℕ := none
  stopLoss : Option ℚ := none
  takeProfit : Option ℚ := none
  smaShort : Option ℕ := none
  smaLong : Option ℕ := none
  volumeThreshold : Option ℚ := none
  emaShort : Option ℕ := none
  emaLong : Option ℕ := none
  atrPeriod : Option ℕ := none
  stopLossMultiplier : Option ℚ := none
  takeProfitMultiplier : Option ℚ := none
  lookbackPeriod : Option ℕ := none
  stdDevThreshold : Option ℚ := none
  gridLevels : Option ℕ := none
  gridSpacing : Option ℚ := none
  basePrice : Option ℚ := none
  totalInvestment : Option ℚ := none
  minProfitThreshold : Option ℚ := none
deriving DecidableEq, Repr

structure RiskM where
  stopLoss : ℚ
  takeProfit : ℚ
deriving DecidableEq, Repr

/-- The common shape of a strategy evaluation result. Per-strategy extras
(indicator snapshots, grid level arrays) are display data no settled claim
reads and are not carried. -/
structure StratResult where
  signal : String
  confidence : ℚ
  reason : String
  currentPrice : Option ℚ := none
  riskManagement : Option RiskM := none
deriving DecidableEq, Repr

def insufficientData : StratResult :=
  { signal := "HOLD", confidence := 0, reason := "Insufficient data" }

/-- `executeScalpingStrategy` (src lines 9-84): RSI plus MACD-histogram
crossover votes; the protective levels are the fixed percentages below and
above the close, irrespective of the signal direction. -/
def executeScalpingStrategy (data : List Bar) (options : Options) : StratResult :=
  let rsiPeriod := options.rsiPeriod.getD 14
  let rsiOverbought := options.rsiOverbought.getD 70
  let rsiOversold := options.rsiOversold.getD 30
  let macdFast := options.macdFast.getD 12
  let macdSlow := options.macdSlow.getD 26
  let macdSignalP := options.macdSignalP.getD 9
  let stopLoss := options.stopLoss.getD (1/2)
  let takeProfit := options.takeProfit.getD 1
  let r0 := calculateRSI (data.map toIndBar) rsiPeriod
  let result := calculateMACD r0 macdFast macdSlow macdSignalP
  match jsIndex result ((result.length : Int) - 1),
        jsIndex result ((result.length : Int) - 2) with
  | some current, some previous =>
    let rsiSignal :=
      if jsLt current.rsi rsiOversold then "BUY"
      else if jsGt current.rsi rsiOverbought then "SELL" else "HOLD"
    let macdSignalValue :=
      match current.macd, previous.macd with
      | JsMacd.obj c, JsMacd.obj p =>
        if jsGtO c.histogramV 0 && jsLeO p.histogramV 0 then "BUY"
        else if jsLtO c.histogramV 0 && jsGeO p.histogramV 0 then "SELL" else "HOLD"
      | _, _ => "HOLD"
    let scr : String × ℚ × String :=
      if rsiSignal == "BUY" && macdSignalValue == "BUY" then
        ("BUY", 8/10, "RSI oversold + MACD bullish crossover")
      else if rsiSignal == "SELL" && macdSignalValue == "SELL" then
        ("SELL", 8/10, "RSI overbought + MACD bearish crossover")
      else if rsiSignal == "BUY" || macdSignalValue == "BUY" then
        ("BUY", 6/10, if rsiSignal == "BUY" then "RSI oversold" else "MACD bullish crossover")
      else if rsiSignal == "SELL" || macdSignalValue == "SELL" then
        ("SELL", 6/10, if rsiSignal == "SELL" then "RSI overbought" else "MACD bearish crossover")
      else ("HOLD", 0, "")
    { signal := scr.1, confidence := scr.2.1, reason := scr.2.2,
      currentPrice := some current.close,
      riskManagement := some
        { stopLoss := current.close * (1 - stopLoss / 100),
          takeProfit := current.close * (1 + takeProfit / 100) } }
  | _, _ => insufficientData

/-- `executeDayTradingStrategy` (src lines 89-167): the trend vote compares
`current.sma` with `current.smaLong`, but both `calculateSMA` calls store
under the key `sma`, so `smaLong` is never assigned and reads `undefined`. -/
def executeDayTradingStrategy (data : List Bar) (options : Options) : StratResult :=
  let smaShort := options.smaShort.getD 20
  let smaLong := options.smaLong.getD 50
  let rsiPeriod := options.rsiPeriod.getD 14
  let volumeThreshold := options.volumeThreshold.getD (3/2)
  let stopLoss := options.stopLoss.getD 2
  let takeProfit := options.takeProfit.getD 4
  let r0 := calculateSMA (data.map toIndBar) smaShort
  let r1 := calculateSMA r0 smaLong
  let result := calculateRSI r1 rsiPeriod
  match jsIndex result ((result.length : Int) - 1),
        jsIndex result ((result.length : Int) - 2) with
  | some current, some previous =>
    let avgVolume := (((data.drop (data.length - 20)).map (·.volume)).sum) / 20
    let volumeRatio := current.volume / avgVolume
    let trendSignal := if jsGtV current.sma current.smaLong then "BULLISH" else "BEARISH"
    let rsiSignal :=
      if jsLt current.rsi 30 then "BUY" else if jsGt current.rsi 70 then "SELL" else "HOLD"
    let volumeSignal := if volumeThreshold < volumeRatio then "HIGH" else "NORMAL"
    let scr : String × ℚ × String :=
      if trendSignal == "BULLISH" && rsiSignal == "BUY" && volumeSignal == "HIGH" then
        ("BUY", 9/10, "Bullish trend + RSI oversold + High volume")
      else if trendSignal == "BEARISH" && rsiSignal == "SELL" && volumeSignal == "HIGH" then
        ("SELL", 9/10, "Bearish trend + RSI overbought + High volume")
      else if trendSignal == "BULLISH" && rsiSignal == "BUY" then
        ("BUY", 7/10, "Bullish trend + RSI oversold")
      else if trendSignal == "BEARISH" && rsiSignal == "SELL" then
        ("SELL", 7/10, "Bearish trend + RSI overbought")
      else ("HOLD", 0, "")
    let _ := previous
    { signal := scr.1, confidence := scr.2.1, reason := scr.2.2,
      currentPrice := some current.close,
      riskManagement := some
        { stopLoss := current.close * (1 - stopLoss / 100),
          takeProfit := current.close * (1 + takeProfit / 100) } }
  | _, _ => insufficientData

/-- `executeSwingTradingStrategy` (src lines 172-257): same never-assigned
long-average key (`emaLong`); protective levels are ATR multiples on the
side selected by the signal, with `current.atr || 0` as the ATR. -/
def executeSwingTradingStrategy (data : List Bar) (options : Options) : StratResult :=
  let emaShort := options.emaShort.getD 12
  let emaLong := options.emaLong.getD 26
  let rsiPeriod := options.rsiPeriod.getD 14
  let atrPeriod := options.atrPeriod.getD 14
  let stopLossMultiplier := options.stopLossMultiplier.getD 2
  let takeProfitMultiplier := options.takeProfitMultiplier.getD 3
  let r0 := calculateEMA (data.map toIndBar) emaShort
  let r1 := calculateEMA r0 emaLong
  let r2 := calculateRSI r1 rsiPeriod
  let result := calculateATR r2 atrPeriod
  match jsIndex result ((result.length : Int) - 1),
        jsIndex result ((result.length : Int) - 2) with
  | some current, some previous =>
    let trendSignal := if jsGtV current.ema current.emaLong then "BULLISH" else "BEARISH"
    let rsiSignal :=
      if jsLt current.rsi 40 then "BUY" else if jsGt current.rsi 60 then "SELL" else "HOLD"
    let momentumSignal := if jsGtV current.ema previous.ema then "BULLISH" else "BEARISH"
    let scr : String × ℚ × String :=
      if trendSignal == "BULLISH" && rsiSignal == "BUY" && momentumSignal == "BULLISH" then
        ("BUY", 85/100, "Bullish trend + RSI oversold + Bullish momentum")
      else if trendSignal == "BEARISH" && rsiSignal == "SELL" && momentumSignal == "BEARISH" then
        ("SELL", 85/100, "Bearish trend + RSI overbought + Bearish momentum")
      else if trendSignal == "BULLISH" && rsiSignal == "BUY" then
        ("BUY", 7/10, "Bullish trend + RSI oversold")
      else if trendSignal == "BEARISH" && rsiSignal == "SELL" then
        ("SELL", 7/10, "Bearish trend + RSI overbought")
      else ("HOLD", 0, "")
    let atr : ℚ := match current.atr.toNum with
      | some v => v
      | none => 0
    let sl := if scr.1 == "BUY" then current.close - atr * stopLossMultiplier
              else current.close + atr * stopLossMultiplier
    let tp := if scr.1 == "BUY" then current.close + atr * takeProfitMultiplier
              else current.close - atr * takeProfitMultiplier
    { signal := scr.1, confidence := scr.2.1, reason := scr.2.2,
      currentPrice := some current.close,
      riskManagement := some { stopLoss := sl, takeProfit := tp } }
  | _, _ => insufficientData

/-- A grid level: `{level, buyPrice, sellPrice, investment, quantity}`. -/
structure GridLevel where
  level : ℕ
  buyPrice : ℚ
  sellPrice : ℚ
  investment : ℚ
  quantity : ℚ
deriving DecidableEq, Repr

/-- `executeGridTradingStrategy` (src lines 262-328): reads
`data[data.length - 1].close` with no length guard, so an empty series
throws a `TypeError` (caught, logged and rethrown); otherwise it never
reports an insufficient-data result. The returned grid-level arrays are
display data and are not carried in the common result shape. -/
def executeGridTradingStrategy (data : List Bar) (options : Options) :
    Except String StratResult :=
  let gridLevels := options.gridLevels.getD 10
  let gridSpacing := options.gridSpacing.getD 1
  let totalInvestment := options.totalInvestment.getD 1000
  match jsIndex data ((data.length : Int) - 1) with
  | none => .error "TypeError: Cannot read properties of undefined (reading close)"
  | some last =>
    let currentPrice := last.close
    let basePriceValue := jsOrQ options.basePrice currentPrice
    let investmentPerLevel := totalInvestment / (gridLevels : ℚ)
    let gridLevelsArray := (List.range gridLevels).map (fun (i : ℕ) =>
      let buyPrice := basePriceValue * (1 - (gridSpacing / 100) * ((i : ℚ) + 1))
      let sellPrice := basePriceValue * (1 + (gridSpacing / 100) * ((i : ℚ) + 1))
      ({ level := (i + 1 : ℕ), buyPrice := buyPrice, sellPrice := sellPrice,
         investment := investmentPerLevel,
         quantity := investmentPerLevel / buyPrice } : GridLevel))
    let currentLevel := gridLevelsArray.find?
      (fun level => level.buyPrice ≤ currentPrice && currentPrice ≤ level.sellPrice)
    let scr : String × ℚ × String :=
      match currentLevel with
      | some level =>
        let distanceToBuy := |currentPrice - level.buyPrice| / currentPrice
        let distanceToSell := |currentPrice - level.sellPrice| / currentPrice
        if distanceToBuy < 1/10 then ("BUY", 8/10, "Grid buy level reached")
        else if distanceToSell < 1/10 then ("SELL", 8/10, "Grid sell level reached")
        else ("HOLD", 1/2, "Grid trading - monitoring levels")
      | none => ("HOLD", 1/2, "Grid trading - monitoring levels")
    .ok { signal := scr.1, confidence := scr.2.1, reason := scr.2.2,
          currentPrice := some currentPrice }

/-- JS float comparison `diff / sqrt(v) > t` for a nonnegative variance
`v`, expressed decidably over `ℚ`. When `v = 0` the quotient is `±Infinity`
(or `NaN` for `diff = 0`), so the comparison holds exactly when
`0 < diff`; when `v > 0` it holds iff `diff > t·sqrt(v)`, i.e. for
`t ≥ 0` iff `diff > 0 ∧ diff² > t²·v`, and for `t < 0` iff
`diff ≥ 0 ∨ diff² < t²·v`. -/
def zCmpGt (diff v t : ℚ) : Bool :=
  if v = 0 then decide (0 < diff)
  else if 0 ≤ t then decide (0 < diff) && decide (t ^ 2 * v < diff ^ 2)
  else decide (0 ≤ diff) || decide (diff ^ 2 < t ^ 2 * v)

/-- JS float comparison `diff / sqrt(v) < -t`, by symmetry. -/
def zCmpLtNeg (diff v t : ℚ) : Bool :=
  zCmpGt (-diff) v t

/-- `executeMeanReversionStrategy` (src lines 402-477): z-score of the last
close against the rolling mean and population standard deviation of the
last `lookbackPeriod` closes, combined with an RSI reading; the protective
levels are percentage offsets on the side selected by the signal. The two
interpolated reason strings are carried as fixed template text. -/
def executeMeanReversionStrategy (data : List Bar) (options : Options) : StratResult :=
  let lookbackPeriod := options.lookbackPeriod.getD 20
  let stdDevThreshold := options.stdDevThreshold.getD 2
  let rsiPeriod := options.rsiPeriod.getD 14
  let stopLoss := options.stopLoss.getD 3
  let takeProfit := options.takeProfit.getD 2
  let prices := data.map (·.close)
  let recentPrices := prices.drop (prices.length - lookbackPeriod)
  let mean := recentPrices.sum / (recentPrices.length : ℚ)
  let variance := (recentPrices.map (fun price => (price - mean) ^ 2)).sum
      / (recentPrices.length : ℚ)
  let result := calculateRSI (data.map toIndBar) rsiPeriod
  match jsIndex result ((result.length : Int) - 1) with
  | none => insufficientData
  | some current =>
    let currentPrice := current.close
    let diff := currentPrice - mean
    let scr : String × ℚ × String :=
      if zCmpGt diff variance stdDevThreshold && jsGt current.rsi 70 then
        ("SELL", 8/10, "Price standard deviations above mean + RSI overbought")
      else if zCmpLtNeg diff variance stdDevThreshold && jsLt current.rsi 30 then
        ("BUY", 8/10, "Price standard deviations below mean + RSI oversold")
      else if zCmpGt diff variance stdDevThreshold then
        ("SELL", 6/10, "Price standard deviations above mean")
      else if zCmpLtNeg diff variance stdDevThreshold then
        ("BUY", 6/10, "Price standard deviations below mean")
      else ("HOLD", 0, "")
    { signal := scr.1, confidence := scr.2.1, reason := scr.2.2,
      currentPrice := some currentPrice,
      riskManagement := some
        { stopLoss := if scr.1 == "BUY" then currentPrice * (1 - stopLoss / 100)
                      else currentPrice * (1 + stopLoss / 100),
          takeProfit := if scr.1 == "BUY" then currentPrice * (1 + takeProfit / 100)
                        else currentPrice * (1 - takeProfit / 100) } }

/-- `strategyType.toLowerCase()`, character by character. -/
def jsToLowerCase (s : String) : String :=
  String.mk (s.toList.map Char.toLower)

/-- `executeStrategy` (src lines 482-507): dispatch on the lower-cased
strategy name; an unrecognized name throws `Unknown strategy type`. -/
def executeStrategy (strategyType : String) (data : List Bar) (options : Options) :
    Except String StratResult :=
  match jsToLowerCase strategyType with
  | "scalping" => .ok (executeScalpingStrategy data options)
  | "day_trading" => .ok (executeDayTradingStrategy data options)
  | "swing_trading" => .ok (executeSwingTradingStrategy data options)
  | "grid_trading" => executeGridTradingStrategy data options
  | "mean_reversion" => .ok (executeMeanReversionStrategy data options)
  | other => .error ("Unknown strategy type: " ++ other)

/-!
The risk management service (`src/unnamed/part_001`, `riskManagementService`).
Repository collaborators (Sequelize models `User`, `Order`, `Position`) are
modelled by a `Db` record; a read either yields the stored rows or fails
(a rejected promise), driven by per-repository failure flags. Every
`validate*` helper wraps its body in try/catch and converts any failure
into an invalid check; display messages are elided (no settled claim reads
them, and several interpolate numbers). -/

structure RiskSettings where
  maxPositionSize : Option ℚ := none
  maxDailyLoss : Option ℚ := none
  maxMonthlyLoss : Option ℚ := none
deriving DecidableEq, Repr

structure User where
  riskSettings : Option RiskSettings := none
deriving DecidableEq, Repr

structure DbOrder where
  userId : ℕ
  createdAt : ℚ
  realizedPnl : Option ℚ := none
deriving DecidableEq, Repr

structure DbPosition where
  userId : ℕ
  isOpen : Bool
deriving DecidableEq, Repr

structure Db where
  users : ℕ → Option User
  usersFail : Bool := false
  orders : List DbOrder
  ordersFail : Bool := false
  positions : List DbPosition
  positionsFail : Bool := false
  startOfDay : ℚ := 0
  startOfMonth : ℚ := 0

/-- `User.findByPk(userId)`: fails when the user repository is down,
otherwise yields the row or `null`. -/
def findByPk (db : Db) (userId : ℕ) : Except String (Option User) :=
  if db.usersFail then .error "db error" else .ok (db.users userId)

/-- `Order.findAll({where: {user_id, createdAt: {[Op.gte]: since}}})`. -/
def ordersSince (db : Db) (userId : ℕ) (since : ℚ) : Except String (List DbOrder) :=
  if db.ordersFail then .error "db error"
  else .ok (db.orders.filter (fun o => o.userId == userId && since ≤ o.createdAt))

structure OrderData where
  symbol : String
  quantity : ℚ
  price : ℚ
  leverage : Option ℚ := none
deriving DecidableEq, Repr

/-- One constituent check: `{valid, value, limit}` on the success path,
bare `{valid: false}` on a caught error (messages elided). -/
structure RiskCheck where
  valid : Bool
  value : Option ℚ := none
  limit : Option ℚ := none
deriving DecidableEq, Repr

/-- `validatePositionSize` (src lines 806-831): position value over the
(hard-coded) `10000` balance against `riskSettings?.maxPositionSize || 0.02`;
a failed or `null` user read lands in the catch (reading `riskSettings`
of `null` is a TypeError) and yields an invalid check. -/
def validatePositionSize (db : Db) (userId : ℕ) (orderData : OrderData) : RiskCheck :=
  match findByPk db userId with
  | .error _ => { valid := false }
  | .ok none => { valid := false }
  | .ok (some user) =>
    let maxPositionSize := jsOrQ (user.riskSettings.bind (·.maxPositionSize)) (2/100)
    let positionValue := orderData.quantity * orderData.price
    let totalBalance : ℚ := 10000
    let positionSizePercentage := positionValue / totalBalance
    { valid := decide (positionSizePercentage ≤ maxPositionSize),
      value := some positionSizePercentage,
      limit := some maxPositionSize }

/-- `validateDailyLoss` (src lines 836-873): the magnitude of today's
negative realized P&L over the hard-coded balance against
`riskSettings?.maxDailyLoss || 0.05`. -/
def validateDailyLoss (db : Db) (userId : ℕ) : RiskCheck :=
  match findByPk db userId with
  | .error _ => { valid := false }
  | .ok none => { valid := false }
  | .ok (some user) =>
    let maxDailyLoss := jsOrQ (user.riskSettings.bind (·.maxDailyLoss)) (5/100)
    match ordersSince db userId db.startOfDay with
    | .error _ => { valid := false }
    | .ok dailyOrders =>
      let dailyPnL := (dailyOrders.map (fun o => jsOrQ o.realizedPnl 0)).sum
      let totalBalance : ℚ := 10000
      let dailyLossPercentage := |min dailyPnL 0| / totalBalance
      { valid := decide (dailyLossPercentage ≤ maxDailyLoss),
        value := some dailyLossPercentage,
        limit := some maxDailyLoss }

/-- `validateMonthlyLoss` (src lines 878-916): as the daily check, from the
start of the month against `riskSettings?.maxMonthlyLoss || 0.20`. -/
def validateMonthlyLoss (db : Db) (userId : ℕ) : RiskCheck :=
  match findByPk db userId with
  | .error _ => { valid := false }
  | .ok none => { valid := false }
  | .ok (some user) =>
    let maxMonthlyLoss := jsOrQ (user.riskSettings.bind (·.maxMonthlyLoss)) (20/100)
    match ordersSince db userId db.startOfMonth with
    | .error _ => { valid := false }
    | .ok monthlyOrders =>
      let monthlyPnL := (monthlyOrders.map (fun o => jsOrQ o.realizedPnl 0)).sum
      let totalBalance : ℚ := 10000
      let monthlyLossPercentage := |min monthlyPnL 0| / totalBalance
      { valid := decide (monthlyLossPercentage ≤ maxMonthlyLoss),
        value := some monthlyLossPercentage,
        limit := some maxMonthlyLoss }

/-- `validateLeverage` (src lines 921-938): `orderData.leverage || 1`
against the hard-coded maximum of `10`. -/
def validateLeverage (orderData : OrderData) : RiskCheck :=
  let maxLeverage : ℚ := 10
  let leverage := jsOrQ orderData.leverage 1
  { valid := decide (leverage ≤ maxLeverage),
    value := some leverage, limit := some maxLeverage }

/-- Substring test for `symbol.includes(...)`. -/
def strIncludes (s sub : String) : Bool :=
  (s.toList.tails).any (fun t => sub.toList.isPrefixOf t)

/-- `validateMarketHours` (src lines 943-965): both the crypto branch and
the fallback report a valid check. -/
def validateMarketHours (symbol : String) : RiskCheck :=
  let isCrypto := strIncludes symbol "USDT" || strIncludes symbol "BTC"
      || strIncludes symbol "ETH"
  if isCrypto then { valid := true } else { valid := true }

/-- `validateCorrelation` (src lines 989-1014): open positions of the user
counted against a hard-coded limit of `3`. Note that `validateOrderRisk`
never invokes this check. -/
def validateCorrelation (db : Db) (userId : ℕ) : RiskCheck :=
  if db.positionsFail then { valid := false }
  else
    let openPositions := db.positions.filter (fun p => p.userId == userId && p.isOpen)
    { valid := decide (openPositions.length < 3),
      value := some (openPositions.length : ℚ),
      limit := some 3 }

/-- The `validations` object of a verdict, holding exactly the five checks
`validateOrderRisk` composes. -/
structure Validations where
  positionSize : RiskCheck
  dailyLoss : RiskCheck
  monthlyLoss : RiskCheck
  leverage : RiskCheck
  marketHours : RiskCheck
deriving DecidableEq, Repr

/-- A verdict: on the error path (user read failed or user not found, which
throws `Usuario no encontrado` into the catch) only `{valid: false, message}`
is returned, with no `validations` object. -/
structure RiskVerdict where
  valid : Bool
  validations : Option Validations := none
deriving DecidableEq, Repr

/-- `validateOrderRisk` (src lines 772-801): looks up the user, runs the
five checks (position size, daily loss, monthly loss, leverage, market
hours — correlation is NOT among them), and is valid exactly when none of
them is invalid; any thrown error is caught and returned as an invalid
verdict. -/
def validateOrderRisk (db : Db) (userId : ℕ) (orderData : OrderData) : RiskVerdict :=
  match findByPk db userId with
  | .error _ => { valid := false }
  | .ok none => { valid := false }
  | .ok (some _) =>
    let validations : Validations :=
      { positionSize := validatePositionSize db userId orderData,
        dailyLoss := validateDailyLoss db userId,
        monthlyLoss := validateMonthlyLoss db userId,
        leverage := validateLeverage orderData,
        marketHours := validateMarketHours orderData.symbol }
    let hasErrors := !(validations.positionSize.valid && validations.dailyLoss.valid
        && validations.monthlyLoss.valid && validations.leverage.valid
        && validations.marketHours.valid)
    { valid := !hasErrors, validations := some validations }

/-!
Helper lemmas about the embedding.
-/

theorem calculateSMA_getElem? (d : List IndBar) (p i : ℕ) :
    (calculateSMA d p)[i]? = (d[i]?).map
      (fun item => { item with sma := jsOfOpt ((smaRaw p (d.map (·.close)))[i]?) }) := by
  simp [calculateSMA, mapIdxGo_getElem?]

theorem calculateEMA_getElem? (d : List IndBar) (p i : ℕ) :
    (calculateEMA d p)[i]? = (d[i]?).map
      (fun item => { item with ema := jsOfOpt ((emaRaw p (d.map (·.close)))[i]?) }) := by
  simp [calculateEMA, mapIdxGo_getElem?]

theorem calculateRSI_getElem? (d : List IndBar) (p i : ℕ) :
    (calculateRSI d p)[i]? = (d[i]?).map
      (fun item => { item with rsi := jsOfOpt ((rsiRaw p (d.map (·.close)))[i]?) }) := by
  simp [calculateRSI, mapIdxGo_getElem?]

theorem calculateATR_getElem? (d : List IndBar) (p i : ℕ) :
    (calculateATR d p)[i]? = (d[i]?).map
      (fun item => { item with atr := jsOfOpt ((atrRaw p d)[i]?) }) := by
  simp [calculateATR, mapIdxGo_getElem?]

theorem calculateMACD_getElem? (d : List IndBar) (f s g i : ℕ) :
    (calculateMACD d f s g)[i]? = (d[i]?).map
      (fun item => { item with macd := match (macdRaw f s g (d.map (·.close)))[i]? with
          | some e => JsMacd.obj e
          | none => JsMacd.null }) := by
  simp [calculateMACD, mapIdxGo_getElem?]

theorem calculateOBV_getElem? (d : List IndBar) (i : ℕ) :
    (calculateOBV d)[i]? = (d[i]?).map
      (fun item =>
        { item with obv := jsOfOpt ((obvRaw (d.map (fun x => (x.close, x.volume))))[i]?) }) := by
  simp [calculateOBV, mapIdxGo_getElem?]

theorem calculateSMA_length (d : List IndBar) (p : ℕ) :
    (calculateSMA d p).length = d.length := by
  simp [calculateSMA, mapIdxGo_length]

theorem calculateEMA_length (d : List IndBar) (p : ℕ) :
    (calculateEMA d p).length = d.length := by
  simp [calculateEMA, mapIdxGo_length]

theorem calculateRSI_length (d : List IndBar) (p : ℕ) :
    (calculateRSI d p).length = d.length := by
  simp [calculateRSI, mapIdxGo_length]

theorem calculateATR_length (d : List IndBar) (p : ℕ) :
    (calculateATR d p).length = d.length := by
  simp [calculateATR, mapIdxGo_length]

theorem calculateMACD_length (d : List IndBar) (f s g : ℕ) :
    (calculateMACD d f s g).length = d.length := by
  simp [calculateMACD, mapIdxGo_length]

theorem wilderRun_length (p : ℕ) (a : ℚ) (xs : List ℚ) :
    (wilderRun p a xs).length = xs.length := by
  induction xs generalizing a with
  | nil => rfl
  | cons x rest ih => simp [wilderRun, ih]

theorem wilderAvg_length (p : ℕ) (xs : List ℚ) :
    (wilderAvg p xs).length = if p = 0 ∨ xs.length < p then 0 else xs.length - p + 1 := by
  unfold wilderAvg
  split
  all_goals simp only [List.length_nil, List.length_cons, wilderRun_length, List.length_drop]

theorem diffsQ_length (vs : List ℚ) : (diffsQ vs).length = vs.length - 1 := by
  simp [diffsQ]

theorem rsiRaw_length (p : ℕ) (vs : List ℚ) :
    (rsiRaw p vs).length =
      if p = 0 ∨ vs.length - 1 < p then 0 else vs.length - 1 - p + 1 := by
  simp [rsiRaw, wilderAvg_length, diffsQ_length]

/-- The library RSI array has `n - p` entries, so the bar at the last
index (`n - 1`) always reads past its end for any positive period: the
service's `rsi[index] || null` at the newest bar is always `null`. -/
theorem rsiRaw_at_last (p : ℕ) (hp : 1 ≤ p) (vs : List ℚ) :
    (rsiRaw p vs)[vs.length - 1]? = none := by
  apply List.getElem?_eq_none
  rw [rsiRaw_length]
  split <;> omega

theorem jsGtV_undef_right (a : JsVal) : jsGtV a JsVal.undef = false := by
  cases a <;> rfl

theorem jsLt_null (b : ℚ) : jsLt JsVal.null b = decide (0 < b) := rfl

theorem jsGt_null (b : ℚ) : jsGt JsVal.null b = decide (b < 0) := rfl

theorem jsIndex_sub {α : Type} (l : List α) (k : ℕ) (x : α)
    (h : jsIndex l ((l.length : Int) - k) = some x) : l[l.length - k]? = some x := by
  unfold jsIndex at h
  split at h
  · exact absurd h (by simp)
  · have hk : ((l.length : Int) - k).toNat = l.length - k := by omega
    rwa [hk] at h

/-- Fields of the newest bar after the day-trading indicator chain: both
`calculateSMA` calls write the key `sma`, so `smaLong` keeps its initial
`undefined`; the RSI library array is read at the same index. -/
theorem dayChain_fields (data : List Bar) (p1 p2 p3 i : ℕ) (cur : IndBar)
    (h : (calculateRSI (calculateSMA (calculateSMA (data.map toIndBar) p1) p2) p3)[i]?
      = some cur) :
    cur.smaLong = JsVal.undef ∧
    cur.rsi = jsOfOpt ((rsiRaw p3
      ((calculateSMA (calculateSMA (data.map toIndBar) p1) p2).map (·.close)))[i]?) := by
  rw [calculateRSI_getElem?] at h
  rcases Option.map_eq_some'.mp h with ⟨b2, hb2, rfl⟩
  refine ⟨?_, rfl⟩
  rw [calculateSMA_getElem?] at hb2
  rcases Option.map_eq_some'.mp hb2 with ⟨b1, hb1, rfl⟩
  rw [calculateSMA_getElem?] at hb1
  rcases Option.map_eq_some'.mp hb1 with ⟨b0, hb0, rfl⟩
  rw [List.getElem?_map] at hb0
  rcases Option.map_eq_some'.mp hb0 with ⟨bar, _, rfl⟩
  rfl

/-- Fields of the newest bar after the swing-trading indicator chain: both
`calculateEMA` calls write the key `ema`, so `emaLong` keeps its initial
`undefined`; the ATR update preserves the RSI field. -/
theorem swingChain_fields (data : List Bar) (e1 e2 p3 p4 i : ℕ) (cur : IndBar)
    (h : (calculateATR
        (calculateRSI (calculateEMA (calculateEMA (data.map toIndBar) e1) e2) p3) p4)[i]?
      = some cur) :
    cur.emaLong = JsVal.undef ∧
    cur.rsi = jsOfOpt ((rsiRaw p3
      ((calculateEMA (calculateEMA (data.map toIndBar) e1) e2).map (·.close)))[i]?) := by
  rw [calculateATR_getElem?] at h
  rcases Option.map_eq_some'.mp h with ⟨b3, hb3, rfl⟩
  rw [calculateRSI_getElem?] at hb3
  rcases Option.map_eq_some'.mp hb3 with ⟨b2, hb2, rfl⟩
  refine ⟨?_, rfl⟩
  rw [calculateEMA_getElem?] at hb2
  rcases Option.map_eq_some'.mp hb2 with ⟨b1, hb1, rfl⟩
  rw [calculateEMA_getElem?] at hb1
  rcases Option.map_eq_some'.mp hb1 with ⟨b0, hb0, rfl⟩
  rw [List.getElem?_map] at hb0
  rcases Option.map_eq_some'.mp hb0 with ⟨bar, _, rfl⟩
  rfl

/-- The day-trading evaluator always reports `HOLD` (for any positive RSI
period): the trend vote reads the never-assigned `smaLong` and is therefore
always `BEARISH`, blocking both BUY branches, while the newest bar's RSI is
always `null` (the library array is `n - p` long), which the JS comparison
`null < 30` turns into a `BUY` RSI vote, blocking both SELL branches. -/
theorem executeDayTradingStrategy_hold (data : List Bar) (o : Options)
    (hp : 1 ≤ o.rsiPeriod.getD 14) :
    (executeDayTradingStrategy data o).signal = "HOLD" := by
  unfold executeDayTradingStrategy
  dsimp only
  split
  case _ current previous hcur hprev =>
    replace hcur := jsIndex_sub _ 1 _ hcur
    rw [calculateRSI_length, calculateSMA_length, calculateSMA_length,
      List.length_map] at hcur
    obtain ⟨hsl, hrsi⟩ := dayChain_fields data _ _ _ _ current hcur
    rw [show data.length - 1 =
        ((calculateSMA (calculateSMA (data.map toIndBar) (o.smaShort.getD 20))
          (o.smaLong.getD 50)).map (·.close)).length - 1 by
      simp [calculateSMA_length]] at hrsi
    rw [rsiRaw_at_last _ hp] at hrsi
    simp only [jsOfOpt] at hrsi
    simp [hsl, hrsi, jsGtV_undef_right, jsLt, jsGt, JsVal.toNum]
  case _ => rfl

/-- The day-trading evaluator can never report `BUY`, for any options at
all: both BUY branches require a `BULLISH` trend vote, and the trend vote
compares against the never-assigned `smaLong`, so it is always `BEARISH`. -/
theorem executeDayTradingStrategy_never_buy (data : List Bar) (o : Options) :
    (executeDayTradingStrategy data o).signal ≠ "BUY" := by
  unfold executeDayTradingStrategy
  dsimp only
  split
  case _ current previous hcur hprev =>
    replace hcur := jsIndex_sub _ 1 _ hcur
    obtain ⟨hsl, _⟩ := dayChain_fields data _ _ _ _ current hcur
    simp only [hsl, jsGtV_undef_right]
    repeat' split
    all_goals simp_all
  case _ => simp [insufficientData]

/-- The swing-trading evaluator always reports `HOLD` (for any positive
RSI period), by the same two mechanisms with `emaLong` and `null` RSI. -/
theorem executeSwingTradingStrategy_hold (data : List Bar) (o : Options)
    (hp : 1 ≤ o.rsiPeriod.getD 14) :
    (executeSwingTradingStrategy data o).signal = "HOLD" := by
  unfold executeSwingTradingStrategy
  dsimp only
  split
  case _ current previous hcur hprev =>
    replace hcur := jsIndex_sub _ 1 _ hcur
    rw [calculateATR_length, calculateRSI_length, calculateEMA_length, calculateEMA_length,
      List.length_map] at hcur
    obtain ⟨hel, hrsi⟩ := swingChain_fields data _ _ _ _ _ current hcur
    rw [show data.length - 1 =
        ((calculateEMA (calculateEMA (data.map toIndBar) (o.emaShort.getD 12))
          (o.emaLong.getD 26)).map (·.close)).length - 1 by
      simp [calculateEMA_length]] at hrsi
    rw [rsiRaw_at_last _ hp] at hrsi
    simp only [jsOfOpt] at hrsi
    simp [hel, hrsi, jsGtV_undef_right, jsLt, jsGt, JsVal.toNum]
  case _ => rfl

/-- The swing-trading evaluator can never report `BUY`, for any options. -/
theorem executeSwingTradingStrategy_never_buy (data : List Bar) (o : Options) :
    (executeSwingTradingStrategy data o).signal ≠ "BUY" := by
  unfold executeSwingTradingStrategy
  dsimp only
  split
  case _ current previous hcur hprev =>
    replace hcur := jsIndex_sub _ 1 _ hcur
    obtain ⟨hel, _⟩ := swingChain_fields data _ _ _ _ _ current hcur
    simp only [hel, jsGtV_undef_right]
    repeat' split
    all_goals simp_all
  case _ => simp [insufficientData]

/-- Whenever the scalping evaluator attaches a `riskManagement` object, its
levels are the fixed percentages below and above the close — the SAME
formula whatever the signal direction. -/
theorem executeScalpingStrategy_rm (data : List Bar) (o : Options) :
    (executeScalpingStrategy data o).riskManagement = none ∨
    ∃ c, (executeScalpingStrategy data o).currentPrice = some c ∧
      (executeScalpingStrategy data o).riskManagement = some
        { stopLoss := c * (1 - o.stopLoss.getD (1/2) / 100),
          takeProfit := c * (1 + o.takeProfit.getD 1 / 100) } := by
  unfold executeScalpingStrategy
  dsimp only
  split
  case _ current previous hcur hprev => exact Or.inr ⟨current.close, rfl, rfl⟩
  case _ => exact Or.inl rfl

/-- Whenever the mean-reversion evaluator attaches a `riskManagement`
object, its levels are percentage offsets on the side selected by the
signal: below/above for `BUY`, above/below otherwise. -/
theorem executeMeanReversionStrategy_rm (data : List Bar) (o : Options) :
    (executeMeanReversionStrategy data o).riskManagement = none ∨
    ∃ c, (executeMeanReversionStrategy data o).currentPrice = some c ∧
      (executeMeanReversionStrategy data o).riskManagement = some
        { stopLoss :=
            if (executeMeanReversionStrategy data o).signal == "BUY" then
              c * (1 - o.stopLoss.getD 3 / 100) else c * (1 + o.stopLoss.getD 3 / 100),
          takeProfit :=
            if (executeMeanReversionStrategy data o).signal == "BUY" then
              c * (1 + o.takeProfit.getD 2 / 100) else c * (1 - o.takeProfit.getD 2 / 100) } := by
  unfold executeMeanReversionStrategy
  dsimp only
  split
  case _ => exact Or.inl rfl
  case _ current hcur => exact Or.inr ⟨current.close, rfl, rfl⟩

def flatBar (c : ℚ) : Bar :=
  { openTime := 0, high := c, low := c, close := c, volume := 1 }

def c1Data : List Bar := [flatBar 100, flatBar 100, flatBar 100]

def c1Opts : Options := { rsiOversold := some 0, rsiOverbought := some (-1) }

/-- C1, counterexample. The claim states that a SELL signal with a
`riskManagement` object has `takeProfit < currentPrice < stopLoss`. On a
flat three-bar series with an oversold threshold of `0` and an overbought
threshold of `-1` (the options bag is not validated), the scalping
evaluator returns a SELL signal — the newest bar's RSI is `null` and JS
evaluates `null > -1` as `0 > -1` — whose levels are
`stopLoss = 99.5 < 100 = currentPrice < 101 = takeProfit`: the fixed
percentage formula places them on the BUY side, violating the claim. -/
theorem C1_counterexample :
    (executeScalpingStrategy c1Data c1Opts).signal = "SELL" ∧
    (executeScalpingStrategy c1Data c1Opts).currentPrice = some 100 ∧
    (executeScalpingStrategy c1Data c1Opts).riskManagement =
      some { stopLoss := 199/2, takeProfit := 101 } ∧
    ¬ ((101 : ℚ) < 100 ∧ (100 : ℚ) < 199/2) := by
  refine ⟨by decide, by decide, ?_, by norm_num⟩
  rcases executeScalpingStrategy_rm c1Data c1Opts with h | ⟨c, hc, hrm⟩
  · have hs : (executeScalpingStrategy c1Data c1Opts).riskManagement.isSome = true := by
      decide
    rw [h] at hs
    exact absurd hs (by simp)
  · have hc100 : (executeScalpingStrategy c1Data c1Opts).currentPrice = some 100 := by
      decide
    rw [hc100] at hc
    obtain rfl : (100 : ℚ) = c := by injection hc
    rw [hrm]
    norm_num [c1Opts]

/-- C1, amended. For every evaluation that returns a directional signal
with a `riskManagement` object and positive price and stop/target
distances: BUY signals satisfy `stopLoss < currentPrice < takeProfit` in
all four strategies; mean-reversion SELL signals satisfy
`takeProfit < currentPrice < stopLoss`; day-trading and swing-trading
never return a directional signal (they always report `HOLD` for any
positive RSI period); and scalping SELL signals — reachable only with a
non-positive oversold threshold and a negative overbought threshold —
instead satisfy `stopLoss < currentPrice < takeProfit`, as scalping's
levels ignore the direction. -/
theorem C1_amended :
    (∀ (data : List Bar) (o : Options) (rm : RiskM) (c : ℚ),
      (executeScalpingStrategy data o).riskManagement = some rm →
      (executeScalpingStrategy data o).currentPrice = some c →
      0 < c → 0 < o.stopLoss.getD (1/2) → 0 < o.takeProfit.getD 1 →
      rm.stopLoss < c ∧ c < rm.takeProfit) ∧
    (∀ (data : List Bar) (o : Options), 1 ≤ o.rsiPeriod.getD 14 →
      (executeDayTradingStrategy data o).signal = "HOLD") ∧
    (∀ (data : List Bar) (o : Options), 1 ≤ o.rsiPeriod.getD 14 →
      (executeSwingTradingStrategy data o).signal = "HOLD") ∧
    (∀ (data : List Bar) (o : Options) (rm : RiskM) (c : ℚ),
      (executeMeanReversionStrategy data o).riskManagement = some rm →
      (executeMeanReversionStrategy data o).currentPrice = some c →
      0 < c → 0 < o.stopLoss.getD 3 → 0 < o.takeProfit.getD 2 →
      ((executeMeanReversionStrategy data o).signal = "BUY" →
        rm.stopLoss < c ∧ c < rm.takeProfit) ∧
      ((executeMeanReversionStrategy data o).signal = "SELL" →
        rm.takeProfit < c ∧ c < rm.stopLoss)) := by
  refine ⟨?_, ?_, ?_, ?_⟩
  · intro data o rm c hrm hc hcpos hsl htp
    rcases executeScalpingStrategy_rm data o with h | ⟨c2, hc2, hrm2⟩
    · rw [h] at hrm; exact absurd hrm (by simp)
    · rw [hc2] at hc
      rw [hrm2] at hrm
      obtain rfl : c2 = c := by injection hc
      obtain rfl : rm = _ := (Option.some_injective _ hrm).symm
      constructor
      · nlinarith
      · nlinarith
  · exact fun data o hp => executeDayTradingStrategy_hold data o hp
  · exact fun data o hp => executeSwingTradingStrategy_hold data o hp
  · intro data o rm c hrm hc hcpos hsl htp
    rcases executeMeanReversionStrategy_rm data o with h | ⟨c2, hc2, hrm2⟩
    · rw [h] at hrm; exact absurd hrm (by simp)
    · rw [hc2] at hc
      rw [hrm2] at hrm
      obtain rfl : c2 = c := by injection hc
      obtain rfl : rm = _ := (Option.some_injective _ hrm).symm
      constructor
      · intro hbuy
        have hb : ((executeMeanReversionStrategy data o).signal == "BUY") = true := by
          rw [hbuy]; rfl
        dsimp only
        simp only [hb, if_true]
        constructor <;> nlinarith
      · intro hsell
        have hb : ((executeMeanReversionStrategy data o).signal == "BUY") = false := by
          rw [hsell]; rfl
        dsimp only
        simp only [hb, Bool.false_eq_true, if_false]
        constructor <;> nlinarith

/-- C1, witness: the amended statement instantiated at concrete inputs —
a flat two-bar series under default options for the scalping/day/swing
conjuncts, a one-bar series for mean-reversion. -/
theorem C1_witness :
    ((executeScalpingStrategy [flatBar 100, flatBar 100] {}).riskManagement =
        some { stopLoss := 100 * (1 - (1/2 : ℚ) / 100),
               takeProfit := 100 * (1 + (1 : ℚ) / 100) } ∧
      (executeScalpingStrategy [flatBar 100, flatBar 100] {}).currentPrice = some 100 ∧
      (0 : ℚ) < 100 ∧
      100 * (1 - (1/2 : ℚ) / 100) < 100 ∧ (100 : ℚ) < 100 * (1 + (1 : ℚ) / 100)) ∧
    (1 ≤ (({} : Options)).rsiPeriod.getD 14 ∧
      (executeDayTradingStrategy [flatBar 100, flatBar 100] {}).signal = "HOLD") ∧
    (executeSwingTradingStrategy [flatBar 100, flatBar 100] {}).signal = "HOLD" ∧
    ((executeMeanReversionStrategy [flatBar 100] {}).riskManagement =
        some { stopLoss := 100 * (1 + (3 : ℚ) / 100),
               takeProfit := 100 * (1 - (2 : ℚ) / 100) } ∧
      ((executeMeanReversionStrategy [flatBar 100] {}).signal = "SELL" →
        100 * (1 - (2 : ℚ) / 100) < 100 ∧ (100 : ℚ) < 100 * (1 + (3 : ℚ) / 100))) := by
  have hrmM : (executeMeanReversionStrategy [flatBar 100] {}).riskManagement =
      some { stopLoss := 100 * (1 + (3 : ℚ) / 100),
             takeProfit := 100 * (1 - (2 : ℚ) / 100) } := by
    norm_num [executeMeanReversionStrategy, calculateRSI, rsiRaw, diffsQ, wilderAvg,
      mapIdxGo, flatBar, toIndBar, jsIndex, jsOfOpt, zCmpGt, zCmpLtNeg, jsLt, jsGt,
      JsVal.toNum]
    all_goals decide
  have hcM : (executeMeanReversionStrategy [flatBar 100] {}).currentPrice = some 100 := by
    decide
  refine ⟨⟨rfl, rfl, by norm_num, ?_, ?_⟩, ⟨by norm_num, ?_⟩, ?_, hrmM, ?_⟩
  · exact (C1_amended.1 [flatBar 100, flatBar 100] {} _ 100 rfl rfl (by norm_num)
      (by norm_num) (by norm_num)).1
  · exact (C1_amended.1 [flatBar 100, flatBar 100] {} _ 100 rfl rfl (by norm_num)
      (by norm_num) (by norm_num)).2
  · exact C1_amended.2.1 [flatBar 100, flatBar 100] {} (by norm_num)
  · exact C1_amended.2.2.1 [flatBar 100, flatBar 100] {} (by norm_num)
  · exact (C1_amended.2.2.2 [flatBar 100] {} _ 100 hrmM hcM (by norm_num)
      (by norm_num) (by norm_num)).2

/-- C8: for every input series and options, the day-trading and
swing-trading evaluators never return a BUY signal. Each computes its
short and long moving average through a helper that always stores under
one fixed field (`sma`, respectively `ema`), so the long-average field
read by the trend vote (`smaLong`, respectively `emaLong`) is never
defined, the trend vote always evaluates `BEARISH`, and every BUY branch
requires a `BULLISH` trend vote. -/
theorem C8_never_buy :
    (∀ (data : List Bar) (o : Options),
      (executeDayTradingStrategy data o).signal ≠ "BUY") ∧
    (∀ (data : List Bar) (o : Options),
      (executeSwingTradingStrategy data o).signal ≠ "BUY") :=
  ⟨executeDayTradingStrategy_never_buy, executeSwingTradingStrategy_never_buy⟩

/-- C2: `calculateAllIndicators` throws for EVERY chain result — in
particular for every structurally valid, non-empty bar series — instead of
returning the per-bar series with the support/resistance sets: the
destructuring `const { supports, resistances } = this.calculateSupportResistance(result)`
reads object properties off the returned ARRAY, both bind to `undefined`,
and the subsequent `supports.length` throws a TypeError that the catch
block rethrows. -/
theorem C2_composite_always_throws :
    ∀ (result : List IndBar),
      calculateAllIndicators result =
        Except.error "TypeError: Cannot read properties of undefined (reading length)" :=
  fun _ => rfl

/-- C3: the claim places the `null` warm-up points of `calculateSMA` at
the FIRST `p - 1` indices. On the two-bar series with closes `[1, 3]` and
period `2` (so `n = p = 2`, and the claim requires index `0` to be `null`
and index `1` to be non-null), the service attaches `sma = 2` at index `0`
— the mean of the window STARTING there, i.e. of closes `1` and `3`, a
look-ahead value — and `null` at index `1`: the library array has
`n - p + 1 = 1` entry and `sma[index] || null` maps it onto bar `0`. -/
theorem C3_sma_misaligned :
    (calculateSMA ([flatBar 1, flatBar 3].map toIndBar) 2).map (·.sma) =
      [JsVal.num 2, JsVal.null] := by
  norm_num [calculateSMA, smaRaw, mapIdxGo, flatBar, toIndBar, jsOfOpt, List.range_succ]

/-- C4: two variants violate the insufficient-data contract. Dispatching
`grid_trading` on the empty series throws a TypeError (the evaluator reads
`data[data.length - 1].close` with no guard) instead of returning the
`HOLD`/`0`/`Insufficient data` result; and `scalping` on a two-bar series
(shorter than its 14-bar RSI lookback) returns `BUY` with confidence `0.6`
and reason `RSI oversold` — the newest bar's RSI is `null` and JS
evaluates `null < 30` as `0 < 30` — rather than the insufficient-data
result. -/
theorem C4_short_series :
    executeStrategy "grid_trading" [] {} =
      Except.error "TypeError: Cannot read properties of undefined (reading close)" ∧
    executeStrategy "scalping" [flatBar 100, flatBar 100] {} =
      Except.ok
        { signal := "BUY", confidence := 6/10, reason := "RSI oversold",
          currentPrice := some 100,
          riskManagement := some
            { stopLoss := 100 * (1 - (1/2 : ℚ) / 100),
              takeProfit := 100 * (1 + (1 : ℚ) / 100) } } :=
  ⟨rfl, rfl⟩

/-- C10: under the `value || null` attachment pattern, an underlying
library value of exactly `0` is reported as `null` — indistinguishable
from a warm-up `null` — shown for OBV (where a flat close legitimately
produces `0`) and for SMA; the same `jsOfOpt` coercion is used by EMA,
RSI, ATR, Williams %R, MFI and PSAR. -/
theorem C10_zero_becomes_null :
    (∀ (d : List IndBar) (i : ℕ), i < d.length →
      (obvRaw (d.map (fun x => (x.close, x.volume))))[i]? = some 0 →
      ((calculateOBV d)[i]?).map (·.obv) = some JsVal.null) ∧
    (∀ (d : List IndBar) (p i : ℕ), i < d.length →
      (smaRaw p (d.map (·.close)))[i]? = some 0 →
      ((calculateSMA d p)[i]?).map (·.sma) = some JsVal.null) := by
  constructor
  · intro d i hi hzero
    rw [calculateOBV_getElem?, List.getElem?_eq_getElem hi]
    simp [hzero, jsOfOpt]
  · intro d p i hi hzero
    rw [calculateSMA_getElem?, List.getElem?_eq_getElem hi]
    simp [hzero, jsOfOpt]

/-- C10, witness: a two-bar flat series makes OBV `0` at raw index `0`,
reported as `null`; a two-bar series with closes `2` and `-2` makes the
(misaligned) first SMA window mean `0`, reported as `null`. -/
theorem C10_witness :
    (0 < ([toIndBar (flatBar 5), toIndBar (flatBar 5)] : List IndBar).length ∧
      (obvRaw (([toIndBar (flatBar 5), toIndBar (flatBar 5)] : List IndBar).map
        (fun x => (x.close, x.volume))))[0]? = some 0 ∧
      ((calculateOBV [toIndBar (flatBar 5), toIndBar (flatBar 5)])[0]?).map (·.obv) =
        some JsVal.null) ∧
    (0 < ([toIndBar (flatBar 2), toIndBar (flatBar (-2))] : List IndBar).length ∧
      (smaRaw 2 (([toIndBar (flatBar 2), toIndBar (flatBar (-2))] : List IndBar).map
        (·.close)))[0]? = some 0 ∧
      ((calculateSMA [toIndBar (flatBar 2), toIndBar (flatBar (-2))] 2)[0]?).map (·.sma) =
        some JsVal.null) := by
  have hsma : (smaRaw 2 (([toIndBar (flatBar 2), toIndBar (flatBar (-2))] : List IndBar).map
      (·.close)))[0]? = some 0 := by
    norm_num [smaRaw, toIndBar, flatBar, List.range_succ]
  refine ⟨⟨by decide, by decide, ?_⟩, ⟨by decide, hsma, ?_⟩⟩
  · exact C10_zero_becomes_null.1 _ 0 (by decide) (by decide)
  · exact C10_zero_becomes_null.2 _ 2 0 (by decide) hsma

/-- The cumulative characterization of the VWAP fold: the bar produced at
index `i` carries the quotient of the accumulated typical-price volume by
the accumulated volume over the first `i + 1` bars (on top of the incoming
accumulators), or `null` when that cumulative volume is not positive. -/
theorem vwapGo_getElem? (xs : List IndBar) (cT cV : ℚ) (i : ℕ) (b : IndBar)
    (h : (vwapGo cT cV xs)[i]? = some b) :
    b.vwap = (if 0 < cV + ((xs.take (i+1)).map (·.volume)).sum then
      some ((cT + ((xs.take (i+1)).map
          (fun x => (x.high + x.low + x.close) / 3 * x.volume)).sum)
        / (cV + ((xs.take (i+1)).map (·.volume)).sum))
      else none) := by
  induction xs generalizing cT cV i with
  | nil => simp [vwapGo] at h
  | cons x rest ih =>
    cases i with
    | zero =>
      simp only [vwapGo, List.getElem?_cons_zero, Option.some.injEq] at h
      rw [← h]
      simp
    | succ j =>
      have ht : (vwapGo (cT + (x.high + x.low + x.close) / 3 * x.volume)
          (cV + x.volume) rest)[j]? = some b := by
        simpa [vwapGo] using h
      have := ih (cT + (x.high + x.low + x.close) / 3 * x.volume) (cV + x.volume) j ht
      rw [this]
      simp only [List.take_succ_cons, List.map_cons, List.sum_cons, ← add_assoc]

/-- C7: `calculateVWAP` attaches at index `i` the cumulative quotient
`Σ(typicalPrice·volume)[0..i] / Σvolume[0..i]` with
`typicalPrice = (high + low + close) / 3`, cumulated from the start of the
series without resetting, and the value is `null` exactly when the
cumulative volume up to `i` is `0` (volumes are nonnegative for valid
bars). -/
theorem C7_vwap (data : List IndBar) (i : ℕ) (b : IndBar)
    (hvol : ∀ x ∈ data, 0 ≤ x.volume)
    (h : (calculateVWAP data)[i]? = some b) :
    b.vwap = (if ((data.take (i+1)).map (·.volume)).sum = 0 then none
      else some ((((data.take (i+1)).map
          (fun x => (x.high + x.low + x.close) / 3 * x.volume)).sum)
        / ((data.take (i+1)).map (·.volume)).sum)) := by
  have hg := vwapGo_getElem? data 0 0 i b h
  simp only [zero_add] at hg
  rw [hg]
  have hs : 0 ≤ ((data.take (i+1)).map (·.volume)).sum := by
    apply List.sum_nonneg
    intro v hv
    rcases List.mem_map.mp hv with ⟨x, hx, rfl⟩
    exact hvol x (List.mem_of_mem_take hx)
  by_cases h0 : ((data.take (i+1)).map (·.volume)).sum = 0
  · rw [h0]
    simp
  · have hpos : 0 < ((data.take (i+1)).map (·.volume)).sum :=
      lt_of_le_of_ne hs (Ne.symm h0)
    rw [if_pos hpos, if_neg h0]

def c7Bar : IndBar :=
  { openTime := 0, high := 6, low := 6, close := 6, volume := 1, vwap := some (9/2) }

/-- C7, witness: on the two-bar series with closes `3` and `6` and unit
volumes, the second VWAP point is `(3 + 6) / 2 = 4.5`. -/
theorem C7_witness :
    (∀ x ∈ ([toIndBar (flatBar 3), toIndBar (flatBar 6)] : List IndBar), 0 ≤ x.volume) ∧
    (calculateVWAP [toIndBar (flatBar 3), toIndBar (flatBar 6)])[1]? = some c7Bar ∧
    c7Bar.vwap = (if ((([toIndBar (flatBar 3), toIndBar (flatBar 6)] : List IndBar).take 2).map
        (·.volume)).sum = 0 then none
      else some (((([toIndBar (flatBar 3), toIndBar (flatBar 6)] : List IndBar).take 2).map
          (fun x => (x.high + x.low + x.close) / 3 * x.volume)).sum
        / ((([toIndBar (flatBar 3), toIndBar (flatBar 6)] : List IndBar).take 2).map
          (·.volume)).sum)) := by
  have hb : (calculateVWAP [toIndBar (flatBar 3), toIndBar (flatBar 6)])[1]? = some c7Bar := by
    norm_num [calculateVWAP, vwapGo, toIndBar, flatBar, c7Bar]
  exact ⟨by decide, hb, C7_vwap _ 1 c7Bar (by decide) hb⟩

def c5User : User := {}

def c5Db : Db :=
  { users := fun _ => some c5User, orders := [],
    positions := [{ userId := 1, isOpen := true }, { userId := 1, isOpen := true },
                  { userId := 1, isOpen := true }] }

def c5Order : OrderData := { symbol := "BTCUSDT", quantity := 1, price := 100 }

/-- C5, counterexample. The claim makes a verdict valid iff all SIX named
checks pass, correlation included. With three open positions (so the
correlation check reports invalid: `3 < 3` fails) but every other limit
respected, `validateOrderRisk` still returns `valid = true`, because it
composes only five checks and never consults `validateCorrelation`. -/
theorem C5_counterexample :
    (validateOrderRisk c5Db 1 c5Order).valid = true ∧
    (validateCorrelation c5Db 1).valid = false := by
  constructor
  · norm_num [validateOrderRisk, validatePositionSize, validateDailyLoss,
      validateMonthlyLoss, validateLeverage, validateMarketHours, findByPk,
      ordersSince, jsOrQ, strIncludes, c5Db, c5User, c5Order]
  · decide

/-- C5, amended: a verdict (for a found user) is valid iff exactly the
five checks `validateOrderRisk` composes — position size, daily loss,
monthly loss, leverage and market hours — are all valid; the correlation
check exists (`validateCorrelation`) but is not consulted. -/
theorem C5_amended (db : Db) (uid : ℕ) (od : OrderData) (u : User)
    (hf : db.usersFail = false) (hu : db.users uid = some u) :
    (validateOrderRisk db uid od).valid = true ↔
      ((validatePositionSize db uid od).valid = true ∧
       (validateDailyLoss db uid).valid = true ∧
       (validateMonthlyLoss db uid).valid = true ∧
       (validateLeverage od).valid = true ∧
       (validateMarketHours od.symbol).valid = true) := by
  unfold validateOrderRisk findByPk
  rw [hf]
  simp [hu, Bool.and_assoc]

/-- C5, witness: the amended equivalence instantiated at the
counterexample state. -/
theorem C5_witness :
    c5Db.usersFail = false ∧ c5Db.users 1 = some c5User ∧
    ((validateOrderRisk c5Db 1 c5Order).valid = true ↔
      ((validatePositionSize c5Db 1 c5Order).valid = true ∧
       (validateDailyLoss c5Db 1).valid = true ∧
       (validateMonthlyLoss c5Db 1).valid = true ∧
       (validateLeverage c5Order).valid = true ∧
       (validateMarketHours c5Order.symbol).valid = true)) :=
  ⟨rfl, rfl, C5_amended c5Db 1 c5Order c5User rfl rfl⟩

def c6User : User := { riskSettings := some { maxPositionSize := some (2/100) } }

def c6Db : Db := { users := fun _ => some c6User, orders := [], positions := [] }

def c6Order : OrderData := { symbol := "BTCUSDT", quantity := 1, price := 300 }

/-- C6: the position-size check passes iff
`quantity × price / accountBalance ≤ maxPositionSize` (the balance is the
hard-coded `10000`); and with `maxPositionSize = 0.02` an order of
`quantity 1, price 300` is rejected with `value 0.03` and `limit 0.02`. -/
theorem C6_positionSize :
    (∀ (db : Db) (uid : ℕ) (od : OrderData) (u : User),
      db.usersFail = false → db.users uid = some u →
      ((validatePositionSize db uid od).valid = true ↔
        od.quantity * od.price / 10000 ≤
          jsOrQ (u.riskSettings.bind (·.maxPositionSize)) (2/100))) ∧
    validatePositionSize c6Db 1 c6Order =
      { valid := false, value := some (3/100), limit := some (2/100) } := by
  constructor
  · intro db uid od u hf hu
    unfold validatePositionSize findByPk
    rw [hf]
    simp [hu]
  · norm_num [validatePositionSize, findByPk, c6Db, c6User, c6Order, jsOrQ]

/-- C6, witness: the equivalence instantiated at the risk-gate acceptance
test state. -/
theorem C6_witness :
    c6Db.usersFail = false ∧ c6Db.users 1 = some c6User ∧
    ((validatePositionSize c6Db 1 c6Order).valid = true ↔
      c6Order.quantity * c6Order.price / 10000 ≤
        jsOrQ (c6User.riskSettings.bind (·.maxPositionSize)) (2/100)) :=
  ⟨rfl, rfl, C6_positionSize.1 c6Db 1 c6Order c6User rfl rfl⟩

/-- C9: `validateOrderRisk` fails closed. It is a total function into
verdicts — every thrown error inside it is caught and converted — and
whenever an internal step fails (the user repository read rejects, the
user does not exist, or the order repository read rejects inside the
daily/monthly loss checks), the returned verdict has `valid = false`:
an error can never yield an approval. -/
theorem C9_fails_closed (db : Db) (uid : ℕ) (od : OrderData)
    (h : db.usersFail = true ∨ db.users uid = none ∨ db.ordersFail = true) :
    (validateOrderRisk db uid od).valid = false := by
  unfold validateOrderRisk findByPk
  rcases h with h | h | h
  · simp [h]
  · cases hf : db.usersFail <;> simp [h, hf]
  · cases hf : db.usersFail
    · cases hu : db.users uid
      · simp [hf, hu]
      · simp [hf, hu, validateDailyLoss, findByPk, ordersSince, h]
    · simp [hf]

def c9Db : Db :=
  { users := fun _ => some c5User, orders := [], positions := [],
    ordersFail := true }

def c9Order : OrderData := { symbol := "BTCUSDT", quantity := 1, price := 100 }

/-- C9, witness: with a failing order-repository read the verdict is
invalid. -/
theorem C9_witness :
    (c9Db.usersFail = true ∨ c9Db.users 1 = none ∨ c9Db.ordersFail = true) ∧
    (validateOrderRisk c9Db 1 c9Order).valid = false :=
  ⟨Or.inr (Or.inr rfl), C9_fails_closed c9Db 1 c9Order (Or.inr (Or.inr rfl))⟩

end TradingBot
